import Mathlib

/-!
# hvac-metrics-to-influx2: the sampling-and-reporting loop of `src/main.cpp`

A shallow embedding of the firmware's control loop: the interrupt-driven pulse
counter, the two millisecond timers, the WiFi connectivity guard, the sensor
roster and the per-cycle report record.  Collaborator libraries (WiFi, the
temperature bus, the InfluxDB client, the clock) are an explicit environment;
every call the firmware makes to them is recorded in an event trace.
-/

namespace HvacMetrics

/-! ## Machine words of the target (ESP8266, 32-bit `unsigned int` and `unsigned long`) -/

/-- Width in bits of `unsigned int`, the type of `electrical_energy_meter_impulses`. -/
def UINT_BITS : Nat := 32

/-- Number of values of an `unsigned int`. -/
def UINT_MOD : Nat := 2 ^ UINT_BITS

/-- Width in bits of `unsigned long`, the type of `millis()` and of the two base times. -/
def ULONG_BITS : Nat := 32

/-- `#define REPORT_TIME 1000 * 60`. -/
def REPORT_TIME : Nat := 1000 * 60

/-- `#define WIFI_HEALTH_CHECK_TIME 1000 * 60`. -/
def WIFI_HEALTH_CHECK_TIME : Nat := 1000 * 60

/-- `#define WIFI_CONNECT_THRESHOLD 25`. -/
def WIFI_CONNECT_THRESHOLD : Nat := 25

/-! ## PulseCounter -/

/-- `handle_electrical_meter_pulse`: `electrical_energy_meter_impulses++` on an
`unsigned int`, argument and result being the counter. -/
def handle_electrical_meter_pulse (counter : Nat) : Nat :=
  (counter + 1) % UINT_MOD

/-- The masked section of `loop` (between `noInterrupts()` and `interrupts()`):
copy the counter to the local, then store 0.  Returns `(local, counter)`. -/
def drain (counter : Nat) : Nat × Nat :=
  (counter, 0)

/-- One step of an interleaving of the interrupt handler with the loop's drain. -/
inductive Step where
  | on_pulse
  | drain
  deriving DecidableEq, Repr

/-- The values returned by the drains of an interleaving run from counter `c`,
in the order of the drains. -/
def drainedValues : Nat → List Step → List Nat
  | _, [] => []
  | c, Step.on_pulse :: rest => drainedValues (handle_electrical_meter_pulse c) rest
  | c, Step.drain :: rest => (drain c).1 :: drainedValues (drain c).2 rest

/-- The counter left by an interleaving run from counter `c`. -/
def counterAfter : Nat → List Step → Nat
  | c, [] => c
  | c, Step.on_pulse :: rest => counterAfter (handle_electrical_meter_pulse c) rest
  | c, Step.drain :: rest => counterAfter (drain c).2 rest

/-- Number of `on_pulse` steps issued in an interleaving. -/
def pulseCount : List Step → Nat
  | [] => 0
  | Step.on_pulse :: rest => pulseCount rest + 1
  | Step.drain :: rest => pulseCount rest

/-- Largest number of pulses pending at any moment of an interleaving that
starts with `pending` undrained pulses: the longest burst of `on_pulse` steps
with no drain in between. -/
def longestBurst : Nat → List Step → Nat
  | pending, [] => pending
  | pending, Step.on_pulse :: rest => longestBurst (pending + 1) rest
  | pending, Step.drain :: rest => max pending (longestBurst 0 rest)

/-- The interleaving of `2 ^ 32` pulses followed by one drain. -/
def wrappingBurst : List Step :=
  List.replicate UINT_MOD Step.on_pulse ++ [Step.drain]

/-! ## Scheduler -/

/-- Subtraction `a - b` of two `w`-bit unsigned words. -/
def usub (w a b : Nat) : Nat :=
  (a + 2 ^ w - b) % 2 ^ w

/-- The timer test of `loop` on a `w`-bit clock word:
`time_now - base_time >= interval`. -/
def timer_due (w time_now base_time interval : Nat) : Bool :=
  decide (interval ≤ usub w time_now base_time)

/-! ## Sensor identities and their field names -/

/-- `DeviceAddress` of the DallasTemperature driver: `uint8_t[8]`. -/
abbrev DeviceAddress : Type := Fin 8 → Fin 256

/-- The all-zero identity, the content of a slot of the `calloc`ed table. -/
def zeroAddress : DeviceAddress := fun _ => 0

/-- `HEX` of the Arduino core. -/
def HEX : Nat := 16

/-- The digit table of the C library's `utoa`, which the Arduino core's
`String(unsigned char, unsigned char base)` constructor calls: lower-case letters. -/
def utoa_digits : List Char := "0123456789abcdefghijklmnopqrstuvwxyz".toList

/-- The digit `utoa` writes for remainder `r`. -/
def utoa_digit (r : Nat) : Char := utoa_digits.getD r '0'

/-- The `do ... while (value != 0)` loop of `utoa`: append the digit of
`value % base` to the buffer, divide, stop at 0. -/
def utoa_loop (base : Nat) : Nat → Nat → List Char → List Char
  | 0, _, buf => buf
  | fuel + 1, value, buf =>
    if value / base = 0 then buf ++ [utoa_digit (value % base)]
    else utoa_loop base fuel (value / base) (buf ++ [utoa_digit (value % base)])

/-- The C library's `utoa(value, buf, base)`: the digits of `value`, least significant
first, then reversed; the empty string for a base outside 2..36. -/
def utoa (value base : Nat) : String :=
  if base < 2 ∨ 36 < base then ""
  else String.mk (utoa_loop base (value + 1) value []).reverse

/-- Arduino `String(unsigned char value, unsigned char base)`. -/
def String_of_uchar (value : Fin 256) (base : Nat) : String :=
  utoa value.val base

/-- `convertAddressToString`: for `i = 0 .. 7`, append `"0"` when the byte is below 16,
then append `String(deviceAddress[i], HEX)`. -/
def convertAddressToString (deviceAddress : DeviceAddress) : String :=
  (List.finRange 8).foldl
    (fun addrToReturn i =>
      (if (deviceAddress i).val < 16 then addrToReturn ++ "0" else addrToReturn)
        ++ String_of_uchar (deviceAddress i) HEX)
    ""

/-- A character that is a hexadecimal digit, in either case. -/
def isHexDigit (c : Char) : Bool :=
  c.isDigit || ('a' ≤ c && c ≤ 'f') || ('A' ≤ c && c ≤ 'F')

/-- The identity of the spec's example whose bytes are `A1 B2 C3 D4 E5 F6 07` and `last`. -/
def exampleIdentity (last : Fin 256) : DeviceAddress :=
  ![0xA1, 0xB2, 0xC3, 0xD4, 0xE5, 0xF6, 0x07, last]

/-! ## The report record -/

/-- A field value: a temperature as the driver returned it (`float` in the source,
kept abstract as `τ`), or the unsigned pulse count. -/
inductive FieldValue (τ : Type) where
  | temperature (celsius : τ)
  | count (n : Nat)
  deriving DecidableEq, Repr

/-- Modelled from the spec: the `Point` type of the InfluxDB client library is not in the
repository.  The spec's Report is "a transient, per-cycle named-field record: one field
per SensorIdentity ... plus one field for the drained pulse count", filled "in roster
order": an ordered list of named fields. -/
structure Point (τ : Type) where
  fields : List (String × FieldValue τ)
  deriving DecidableEq, Repr

/-- Modelled from the spec: `clearFields` "clears any prior field state". -/
def Point.clearFields (_p : Point τ) : Point τ :=
  { fields := [] }

/-- Modelled from the spec: `addField` "adds a field keyed by" the given name, after
the fields already present. -/
def Point.addField (p : Point τ) (name : String) (value : FieldValue τ) : Point τ :=
  { fields := p.fields ++ [(name, value)] }

/-! ## Collaborators, events, state -/

/-- The collaborators as the firmware observes them during one boot. -/
structure Env (τ : Type) where
  /-- Result of the `k`-th evaluation of `WiFi.status() == WL_CONNECTED` since boot. -/
  wifiConnected : Nat → Bool
  /-- Result of `temperature_sensors.getDS18Count()`, a `uint8_t`. -/
  getDS18Count : Fin 256
  /-- The `temperature_sensors.getAddress(_, index)` call: the identity, or failure. -/
  getAddress : Nat → Option DeviceAddress
  /-- Result of `temperature_sensors.getTempC(address)`. -/
  getTempC : DeviceAddress → τ
  /-- Result of `influx_client.validateConnection()`. -/
  validateConnection : Bool
  /-- Result of the `k`-th `influx_client.writePoint` since boot. -/
  writePoint : Nat → Bool

/-- Calls to the collaborators, in program order. -/
inductive Event (τ : Type) where
  | wifiBegin
  | statusPoll (connected : Bool)
  | reconnect
  | ledLow
  | ledHigh
  | delay (ms : Nat)
  | restart
  | attachInterrupt
  | sensorsBegin
  | getAddress (index : Nat) (ok : Bool)
  | timeSync
  | validateConnection (ok : Bool)
  | noInterrupts
  | interrupts
  | clearFields
  | requestTemperatures
  | addField (name : String) (value : FieldValue τ)
  | println (fields : List (String × FieldValue τ))
  | writePoint (fields : List (String × FieldValue τ)) (ok : Bool)
  deriving DecidableEq, Repr

/-- The globals of `main.cpp`, the number of status polls and writes made since boot,
and the trace of collaborator calls. -/
structure State (τ : Type) where
  report_base_time : Nat
  wifi_check_base_time : Nat
  electrical_energy_meter_impulses : Nat
  temperature_sensors_count : Nat
  device_addresses : List DeviceAddress
  heat_pump_metrics : Point τ
  polls : Nat
  writes : Nat
  trace : List (Event τ)

/-- The state at power-on: zero-initialised globals, a `Point` without fields. -/
def State.initial : State τ :=
  { report_base_time := 0, wifi_check_base_time := 0,
    electrical_energy_meter_impulses := 0, temperature_sensors_count := 0,
    device_addresses := [], heat_pump_metrics := { fields := [] },
    polls := 0, writes := 0, trace := [] }

/-- Record a collaborator call. -/
def State.emit (s : State τ) (e : Event τ) : State τ :=
  { s with trace := s.trace ++ [e] }

/-- How a function of the firmware ends: it returns, or it reaches `ESP.restart()`,
after which nothing of this boot executes. -/
inductive Run (σ : Type) where
  | returned (s : σ)
  | restarted (s : σ)

/-- The state in which a run ended. -/
def Run.state : Run σ → σ
  | Run.returned s => s
  | Run.restarted s => s

/-- Whether the run reached `ESP.restart()`. -/
def Run.isRestarted : Run σ → Bool
  | Run.returned _ => false
  | Run.restarted _ => true

/-- Sequencing: the continuation runs only after a return. -/
def Run.bind (r : Run σ) (f : σ → Run σ) : Run σ :=
  match r with
  | Run.returned s => f s
  | Run.restarted s => Run.restarted s

/-! ## ConnectivityGuard and FaultEscalation -/

/-- One evaluation of `WiFi.status() == WL_CONNECTED`: the state after the poll. -/
def poll_wifi (env : Env τ) (s : State τ) : State τ :=
  { s with polls := s.polls + 1,
           trace := s.trace ++ [Event.statusPoll (env.wifiConnected s.polls)] }

/-- The fatal path: LED on, `delay(ms)`, `ESP.restart()`. -/
def restart_after (ms : Nat) (s : State τ) : Run (State τ) :=
  Run.restarted (((s.emit Event.ledLow).emit (Event.delay ms)).emit Event.restart)

/-- The body of the `for` loop of `wait_for_wifi_connect`: LED on, 500 ms, LED off, 500 ms. -/
def blink (s : State τ) : State τ :=
  (((s.emit Event.ledLow).emit (Event.delay 500)).emit Event.ledHigh).emit (Event.delay 500)

/-- The `for` loop of `wait_for_wifi_connect` with `budget = WIFI_CONNECT_THRESHOLD - i`
iterations left: when `i < WIFI_CONNECT_THRESHOLD` fails the status is not read
(`&&` short-circuits); otherwise the status is read and the body runs if not connected. -/
def wait_for_wifi_connect_loop (env : Env τ) : Nat → State τ → State τ
  | 0, s => s
  | budget + 1, s =>
    if env.wifiConnected s.polls then poll_wifi env s
    else wait_for_wifi_connect_loop env budget (blink (poll_wifi env s))

/-- `wait_for_wifi_connect`: the bounded loop, then one more status read that decides
between returning and the fatal restart. -/
def wait_for_wifi_connect (env : Env τ) (s : State τ) : Run (State τ) :=
  let s1 := wait_for_wifi_connect_loop env WIFI_CONNECT_THRESHOLD s
  if env.wifiConnected s1.polls then Run.returned (poll_wifi env s1)
  else restart_after 2000 (poll_wifi env s1)

/-- `check_wifi_and_reconnect_if_needed`. -/
def check_wifi_and_reconnect_if_needed (env : Env τ) (s : State τ) : Run (State τ) :=
  if env.wifiConnected s.polls then Run.returned (poll_wifi env s)
  else wait_for_wifi_connect env ((poll_wifi env s).emit Event.reconnect)

/-! ## SensorRoster -/

/-- The `for` loop of `configure_temperature_sensors` at index `i` with `remaining`
indices to go: a failed `getAddress` is fatal at once. -/
def resolve_addresses (env : Env τ) : Nat → Nat → State τ → Run (State τ)
  | 0, _, s => Run.returned s
  | remaining + 1, i, s =>
    match env.getAddress i with
    | some address =>
      resolve_addresses env remaining (i + 1)
        ({ s with device_addresses := s.device_addresses.set i address }.emit
          (Event.getAddress i true))
    | none => restart_after 3000 (s.emit (Event.getAddress i false))

/-- `configure_temperature_sensors`: count the devices, `calloc` the table, resolve
every index. -/
def configure_temperature_sensors (env : Env τ) (s : State τ) : Run (State τ) :=
  resolve_addresses env env.getDS18Count.val 0
    { s.emit Event.sensorsBegin with
      temperature_sensors_count := env.getDS18Count.val,
      device_addresses := List.replicate env.getDS18Count.val zeroAddress }

/-- `connect_influx_client`. -/
def connect_influx_client (env : Env τ) (s : State τ) : Run (State τ) :=
  if env.validateConnection then Run.returned (s.emit (Event.validateConnection true))
  else restart_after 4000 (s.emit (Event.validateConnection false))

/-- `setup`, `now` being the value `millis()` returns on its last line.  `WiFi.mode` and
`WiFi.begin` are the event `wifiBegin`, `pinMode` and `attachInterrupt` the event
`attachInterrupt`; `Serial.begin` and the LED `pinMode` leave no event. -/
def setup (env : Env τ) (now : Nat) (s : State τ) : Run (State τ) :=
  (wait_for_wifi_connect env (s.emit Event.wifiBegin)).bind fun s1 =>
  (configure_temperature_sensors env (s1.emit Event.attachInterrupt)).bind fun s2 =>
  (connect_influx_client env (s2.emit Event.timeSync)).bind fun s3 =>
  Run.returned { s3 with wifi_check_base_time := now, report_base_time := now }

/-! ## ReportAssembler and the loop -/

/-- The `for` loop of the report branch at index `i` with `remaining` indices to go:
one field per roster slot, named by `convertAddressToString`, holding `getTempC`. -/
def add_temperature_fields (env : Env τ) : Nat → Nat → State τ → State τ
  | 0, _, s => s
  | remaining + 1, i, s =>
    let address := s.device_addresses.getD i zeroAddress
    let name := convertAddressToString address
    let value := FieldValue.temperature (env.getTempC address)
    add_temperature_fields env remaining (i + 1)
      ({ s with heat_pump_metrics := s.heat_pump_metrics.addField name value }.emit
        (Event.addField name value))

/-- The masked critical section of `loop`: `noInterrupts()`, the drain, `interrupts()`.
Returns the local copy and the state. -/
def drain_impulses (s : State τ) : Nat × State τ :=
  ((drain s.electrical_energy_meter_impulses).1,
   { (s.emit Event.noInterrupts) with
       electrical_energy_meter_impulses := (drain s.electrical_energy_meter_impulses).2
     }.emit Event.interrupts)

/-- Lines 151-168 of `loop`: drain the counter, clear the record, request the
temperatures, add one field per sensor and the pulse field. -/
def assemble_report (env : Env τ) (s : State τ) : State τ :=
  let drained := drain_impulses s
  let local_impulses := drained.1
  let s1 := drained.2
  let s2 := { s1 with heat_pump_metrics := s1.heat_pump_metrics.clearFields }.emit
    Event.clearFields
  let s3 := s2.emit Event.requestTemperatures
  let s4 := add_temperature_fields env s3.temperature_sensors_count 0 s3
  { s4 with heat_pump_metrics :=
      s4.heat_pump_metrics.addField "electrical_impulses" (FieldValue.count local_impulses)
    }.emit (Event.addField "electrical_impulses" (FieldValue.count local_impulses))

/-- Lines 173-179 of `loop`: print the record, LED on, write the record, LED off
if the write succeeded. -/
def transmit (env : Env τ) (s : State τ) : Run (State τ) :=
  let s1 := (s.emit (Event.println s.heat_pump_metrics.fields)).emit Event.ledLow
  let ok := env.writePoint s1.writes
  let s2 := { s1 with writes := s1.writes + 1 }.emit
    (Event.writePoint s1.heat_pump_metrics.fields ok)
  Run.returned (if ok then s2.emit Event.ledHigh else s2)

/-- The body of the report branch of `loop`. -/
def report_cycle (env : Env τ) (time_now : Nat) (s : State τ) : Run (State τ) :=
  (check_wifi_and_reconnect_if_needed env
    (assemble_report env { s with report_base_time := time_now })).bind (transmit env)

/-- The health-check branch of `loop`. -/
def health_check (env : Env τ) (time_now : Nat) (s : State τ) : Run (State τ) :=
  if timer_due ULONG_BITS time_now s.wifi_check_base_time WIFI_HEALTH_CHECK_TIME then
    check_wifi_and_reconnect_if_needed env { s with wifi_check_base_time := time_now }
  else Run.returned s

/-- One iteration of `loop`, `time_now` being the value of `millis()` it samples. -/
def loop (env : Env τ) (time_now : Nat) (s : State τ) : Run (State τ) :=
  (health_check env time_now s).bind fun s1 =>
    if timer_due ULONG_BITS time_now s1.report_base_time REPORT_TIME then
      report_cycle env time_now s1
    else Run.returned s1

/-- A pulse interrupt between two statements of the loop context. -/
def State.on_pulse (s : State τ) : State τ :=
  { s with electrical_energy_meter_impulses :=
      handle_electrical_meter_pulse s.electrical_energy_meter_impulses }

/-- States at the start of a `loop` iteration: the state `setup` returns from power-on,
and from there any returned `loop` iteration at any clock reading and any pulse, with
any behaviour of the collaborators. -/
inductive Reachable : State τ → Prop where
  | boot (env : Env τ) (now : Nat) (s : State τ) :
      setup env now State.initial = Run.returned s → Reachable s
  | iteration (env : Env τ) (time_now : Nat) (s s1 : State τ) :
      Reachable s → loop env time_now s = Run.returned s1 → Reachable s1
  | pulse (s : State τ) : Reachable s → Reachable s.on_pulse

/-! ## Boot runs, trace observations and example inputs -/

/-- The iterations of `loop` at the clock readings `clock`, one after the other, until
one of them restarts. -/
def run_loop (env : Env τ) : List Nat → State τ → Run (State τ)
  | [], s => Run.returned s
  | time_now :: clock, s => (loop env time_now s).bind (run_loop env clock)

/-- One boot: `setup` from power-on, then `loop` at each reading of `clock`. -/
def boot (env : Env τ) (now : Nat) (clock : List Nat) : Run (State τ) :=
  (setup env now State.initial).bind (run_loop env clock)

/-- The events of one polling attempt that finds the link down: the status read and
the body of the `for` loop of `wait_for_wifi_connect`. -/
def attemptEvents : List (Event τ) :=
  [Event.statusPoll false, Event.ledLow, Event.delay 500, Event.ledHigh, Event.delay 500]

/-- The result of a status poll event, nothing for another event. -/
def Event.pollResult : Event τ → Option Bool
  | Event.statusPoll connected => some connected
  | _ => none

/-- The result of the most recent status poll of a trace. -/
def lastPoll (trace : List (Event τ)) : Option Bool :=
  (trace.filterMap Event.pollResult).getLast?

/-- Events the connectivity guard and the fatal path emit. -/
def Event.isGuard : Event τ → Bool
  | Event.statusPoll _ => true
  | Event.reconnect => true
  | Event.ledLow => true
  | Event.ledHigh => true
  | Event.delay _ => true
  | Event.restart => true
  | _ => false

/-- Events of building or sending a report. -/
def Event.isReport : Event τ → Bool
  | Event.clearFields => true
  | Event.requestTemperatures => true
  | Event.addField _ _ => true
  | Event.println _ => true
  | Event.writePoint _ _ => true
  | _ => false

/-- A database write. -/
def Event.isWrite : Event τ → Bool
  | Event.writePoint _ _ => true
  | _ => false

/-- The step from `s` to `s1` changes no global but the poll count and appends the
events `g` to the trace. -/
def TraceStep (s s1 : State τ) (g : List (Event τ)) : Prop :=
  s1.report_base_time = s.report_base_time ∧
  s1.wifi_check_base_time = s.wifi_check_base_time ∧
  s1.electrical_energy_meter_impulses = s.electrical_energy_meter_impulses ∧
  s1.temperature_sensors_count = s.temperature_sensors_count ∧
  s1.device_addresses = s.device_addresses ∧
  s1.heat_pump_metrics = s.heat_pump_metrics ∧
  s1.writes = s.writes ∧
  s1.trace = s.trace ++ g

/-- The field the report holds for one identity: its hex name and the driver's read. -/
def temperatureField (env : Env τ) (address : DeviceAddress) : String × FieldValue τ :=
  (convertAddressToString address, FieldValue.temperature (env.getTempC address))

/-- The fields the `for` loop of the report branch adds from index `i` in `remaining`
iterations over the table `addresses`. -/
def rosterFields (env : Env τ) (addresses : List DeviceAddress) (remaining i : Nat) :
    List (String × FieldValue τ) :=
  (List.range remaining).map fun j => temperatureField env (addresses.getD (i + j) zeroAddress)

/-- The event of adding a field. -/
def addFieldEvent (field : String × FieldValue τ) : Event τ :=
  Event.addField field.1 field.2

/-- Example collaborators: three sensors with the identities of the spec's example,
the second one reading the -127 sentinel; WiFi and database up. -/
def exampleEnv : Env Int :=
  { wifiConnected := fun _ => true,
    getDS18Count := 3,
    getAddress := fun i =>
      if i = 0 then some (exampleIdentity 0x08)
      else if i = 1 then some (exampleIdentity 0x09)
      else some (exampleIdentity 0x0A),
    getTempC := fun address => if address 7 = 0x09 then -127 else 21,
    validateConnection := true,
    writePoint := fun _ => true }

/-- Example collaborators with a WiFi link that never comes up. -/
def neverConnectedEnv : Env Int :=
  { exampleEnv with wifiConnected := fun _ => false }

/-- Example collaborators whose bus loses the device at index 1 of 3. -/
def failingBusEnv : Env Int :=
  { exampleEnv with getAddress := fun i => if i = 1 then none else exampleEnv.getAddress i }

/-- Example state: the roster of the spec's example, 42 pulses pending, and a field
left in the record by an earlier cycle. -/
def exampleRosterState : State Int :=
  { (State.initial : State Int) with
    temperature_sensors_count := 3,
    device_addresses := [exampleIdentity 0x08, exampleIdentity 0x09, exampleIdentity 0x0A],
    electrical_energy_meter_impulses := 42,
    heat_pump_metrics := { fields := [("stale", FieldValue.count 7)] } }

/-- Example state: what `setup` leaves with `exampleEnv` when `millis()` reads 5. -/
def exampleBootState : State Int :=
  (setup exampleEnv 5 State.initial).state

/-! ## Lemmas: PulseCounter -/

theorem le_longestBurst (c : Nat) (steps : List Step) : c ≤ longestBurst c steps := by
  induction steps generalizing c with
  | nil => simp [longestBurst]
  | cons st rest ih =>
    cases st with
    | on_pulse =>
      have := ih (c + 1)
      simp only [longestBurst]
      omega
    | drain => simp [longestBurst]

theorem drained_add_counter (c : Nat) (steps : List Step)
    (h : longestBurst c steps < UINT_MOD) :
    (drainedValues c steps).sum + counterAfter c steps = c + pulseCount steps := by
  induction steps generalizing c with
  | nil => simp [drainedValues, counterAfter, pulseCount]
  | cons st rest ih =>
    cases st with
    | on_pulse =>
      simp only [longestBurst] at h
      have hle := le_longestBurst (c + 1) rest
      have hc : handle_electrical_meter_pulse c = c + 1 := by
        unfold handle_electrical_meter_pulse
        exact Nat.mod_eq_of_lt (by omega)
      simp only [drainedValues, counterAfter, pulseCount, hc]
      have := ih (c + 1) h
      omega
    | drain =>
      simp only [longestBurst] at h
      have h0 : longestBurst 0 rest < UINT_MOD := lt_of_le_of_lt (le_max_right _ _) h
      have := ih 0 h0
      simp only [drainedValues, counterAfter, pulseCount, drain, List.sum_cons]
      omega

theorem counterAfter_append_drain (c : Nat) (steps : List Step) :
    counterAfter c (steps ++ [Step.drain]) = 0 := by
  induction steps generalizing c with
  | nil => simp [counterAfter, drain]
  | cons st rest ih =>
    cases st <;> simp [counterAfter, ih]

theorem drainedValues_replicate_pulse (n c : Nat) (hc : c < UINT_MOD) :
    drainedValues c (List.replicate n Step.on_pulse ++ [Step.drain])
      = [(c + n) % UINT_MOD] := by
  induction n generalizing c with
  | zero =>
    simp only [List.replicate, List.nil_append, drainedValues, drain, Nat.add_zero]
    rw [Nat.mod_eq_of_lt hc]
  | succ n ih =>
    have hpos : 0 < UINT_MOD := by unfold UINT_MOD; positivity
    have hlt : handle_electrical_meter_pulse c < UINT_MOD := Nat.mod_lt _ hpos
    rw [List.replicate_succ, List.cons_append]
    simp only [drainedValues]
    rw [ih _ hlt]
    unfold handle_electrical_meter_pulse
    rw [Nat.mod_add_mod]
    congr 2
    omega

theorem pulseCount_replicate_pulse (n : Nat) :
    pulseCount (List.replicate n Step.on_pulse ++ [Step.drain]) = n := by
  induction n with
  | zero => simp [pulseCount]
  | succ n ih =>
    rw [List.replicate_succ, List.cons_append]
    simp only [pulseCount, ih]

/-! ## Lemmas: Scheduler -/

theorem usub_of_elapsed (w last d : Nat) (hl : last < 2 ^ w) (hd : d < 2 ^ w) :
    usub w ((last + d) % 2 ^ w) last = d := by
  unfold usub
  rcases Nat.lt_or_ge (last + d) (2 ^ w) with h | h
  · rw [Nat.mod_eq_of_lt h]
    have : last + d + 2 ^ w - last = d + 2 ^ w := by omega
    rw [this, Nat.add_mod_right, Nat.mod_eq_of_lt hd]
  · have hmod : (last + d) % 2 ^ w = last + d - 2 ^ w := by
      rw [Nat.mod_eq_sub_mod h]
      exact Nat.mod_eq_of_lt (by omega)
    rw [hmod]
    have : last + d - 2 ^ w + 2 ^ w - last = d := by omega
    rw [this, Nat.mod_eq_of_lt hd]

theorem usub_eq_int_emod (w now last : Nat) (hl : last < 2 ^ w) :
    ((usub w now last : Nat) : Int) = ((now : Int) - (last : Int)) % ((2 : Int) ^ w) := by
  unfold usub
  have hle : last ≤ now + 2 ^ w := by omega
  rw [Int.natCast_mod, Nat.cast_sub hle]
  push_cast
  have : (now : Int) + 2 ^ w - (last : Int) = ((now : Int) - last) + 2 ^ w := by ring
  rw [this, Int.add_emod_self]

/-! ## Lemmas: field names -/

theorem utoa_digit_eq_digitChar (n : Nat) (h : n < 16) : utoa_digit n = Nat.digitChar n := by
  interval_cases n <;> rfl

theorem isHexDigit_utoa_digit (n : Nat) (h : n < 16) : isHexDigit (utoa_digit n) = true := by
  interval_cases n <;> rfl

theorem String_of_uchar_HEX_small (b : Fin 256) (h : b.val < 16) :
    (String_of_uchar b HEX).toList = [utoa_digit b.val] := by
  have hd : b.val / 16 = 0 := Nat.div_eq_of_lt h
  have hm : b.val % 16 = b.val := Nat.mod_eq_of_lt h
  simp [String_of_uchar, utoa, HEX, utoa_loop, hd, hm]

theorem String_of_uchar_HEX_large (b : Fin 256) (h : ¬ b.val < 16) :
    (String_of_uchar b HEX).toList = [utoa_digit (b.val / 16), utoa_digit (b.val % 16)] := by
  have hb := b.isLt
  have hd : b.val / 16 ≠ 0 := by omega
  have hdd : b.val / 16 / 16 = 0 := by omega
  have hm : b.val / 16 % 16 = b.val / 16 := by omega
  obtain ⟨f, hf⟩ : ∃ f, b.val + 1 = f + 2 := ⟨b.val - 1, by omega⟩
  have hloop : utoa_loop 16 (f + 2) b.val []
      = [utoa_digit (b.val % 16), utoa_digit (b.val / 16)] := by
    simp [utoa_loop, hd, hdd, hm]
  simp [String_of_uchar, utoa, HEX, hf, hloop]

theorem byte_step_toList (acc : String) (b : Fin 256) :
    ((if b.val < 16 then acc ++ "0" else acc) ++ String_of_uchar b HEX).toList
      = acc.toList ++ [utoa_digit (b.val / 16), utoa_digit (b.val % 16)] := by
  by_cases h : b.val < 16
  · have hd : b.val / 16 = 0 := Nat.div_eq_of_lt h
    have hm : b.val % 16 = b.val := Nat.mod_eq_of_lt h
    simp only [h, if_true, String.toList, String.data_append]
    have := String_of_uchar_HEX_small b h
    simp only [String.toList] at this
    rw [this, hd, hm]
    simp [utoa_digit, utoa_digits]
  · simp only [h, if_false, String.toList, String.data_append]
    have := String_of_uchar_HEX_large b h
    simp only [String.toList] at this
    rw [this]

theorem foldl_bytes_toList (a : DeviceAddress) (l : List (Fin 8)) (acc : String) :
    (l.foldl
      (fun addrToReturn i =>
        (if (a i).val < 16 then addrToReturn ++ "0" else addrToReturn)
          ++ String_of_uchar (a i) HEX) acc).toList
      = acc.toList ++ l.flatMap (fun i => [utoa_digit ((a i).val / 16), utoa_digit ((a i).val % 16)]) := by
  induction l generalizing acc with
  | nil => simp
  | cons i rest ih =>
    rw [List.foldl_cons, ih, byte_step_toList]
    simp [List.flatMap_cons]

theorem convertAddressToString_toList (a : DeviceAddress) :
    (convertAddressToString a).toList
      = (List.finRange 8).flatMap
          (fun i => [utoa_digit ((a i).val / 16), utoa_digit ((a i).val % 16)]) := by
  unfold convertAddressToString
  rw [foldl_bytes_toList]
  simp

theorem finRange_eight : List.finRange 8 = [0, 1, 2, 3, 4, 5, 6, 7] := by decide

/-! ## Claims: PulseCounter and Scheduler -/

/-- Claim C1, as stated, fails: from a counter of 0, `2 ^ 32` pulses followed by one
drain make the 32-bit counter wrap to 0, so the drain returns 0 while `2 ^ 32` pulses
were issued. -/
theorem pulse_sum_wraps :
    drainedValues 0 wrappingBurst = [0] ∧ pulseCount wrappingBurst = 2 ^ 32 ∧
      (drainedValues 0 wrappingBurst).sum ≠ pulseCount wrappingBurst := by
  have hd : drainedValues 0 wrappingBurst = [0] := by
    unfold wrappingBurst
    rw [drainedValues_replicate_pulse UINT_MOD 0 (by unfold UINT_MOD; positivity)]
    simp
  have hp : pulseCount wrappingBurst = 2 ^ 32 := by
    unfold wrappingBurst
    rw [pulseCount_replicate_pulse]
    rfl
  refine ⟨hd, hp, ?_⟩
  rw [hd, hp]
  simp

/-- Claim C1, amended: for every finite interleaving of `on_pulse` and drain steps that
starts from a counter of 0, ends with a drain and never has `2 ^ 32` or more pulses
pending between two drains, the sum of the drained values equals the number of
`on_pulse` steps. -/
theorem pulse_sum_conserved (steps : List Step)
    (h : longestBurst 0 (steps ++ [Step.drain]) < UINT_MOD) :
    (drainedValues 0 (steps ++ [Step.drain])).sum = pulseCount (steps ++ [Step.drain]) := by
  have hsum := drained_add_counter 0 (steps ++ [Step.drain]) h
  rw [counterAfter_append_drain] at hsum
  omega

/-- Claim C1, amended, at the interleaving pulse, pulse, drain, pulse, drain. -/
theorem pulse_sum_conserved_witness :
    longestBurst 0 ([Step.on_pulse, Step.on_pulse, Step.drain, Step.on_pulse] ++ [Step.drain])
        < UINT_MOD ∧
      (drainedValues 0
          ([Step.on_pulse, Step.on_pulse, Step.drain, Step.on_pulse] ++ [Step.drain])).sum
        = pulseCount ([Step.on_pulse, Step.on_pulse, Step.drain, Step.on_pulse] ++ [Step.drain]) :=
  ⟨by decide, pulse_sum_conserved _ (by decide)⟩

/-- Claim C2: on a `w`-bit clock word the timer test of `loop` is true iff `now - last`
taken modulo `2 ^ w` is at least the interval; whenever the true elapsed time `d` is below
the clock period and `now = last + d` modulo `2 ^ w`, the timer fires iff `d >= interval`,
also across a wrap of the clock; `last = MAX - 2`, `now = 3`, `interval = 10` does not
fire. -/
theorem timer_due_iff_elapsed (w now last interval : Nat) (hlast : last < 2 ^ w) :
    (timer_due w now last interval = true
        ↔ (interval : Int) ≤ ((now : Int) - (last : Int)) % (2 : Int) ^ w) ∧
      (∀ d, d < 2 ^ w → now = (last + d) % 2 ^ w →
        (timer_due w now last interval = true ↔ interval ≤ d)) ∧
      (2 ≤ w → timer_due w 3 (2 ^ w - 1 - 2) 10 = false) := by
  refine ⟨?_, ?_, ?_⟩
  · unfold timer_due
    rw [decide_eq_true_iff, ← usub_eq_int_emod w now last hlast]
    exact Nat.cast_le.symm
  · intro d hd hnow
    unfold timer_due
    rw [decide_eq_true_iff, hnow, usub_of_elapsed w last d hlast hd]
  · intro hw
    have h4 : 2 ^ 2 ≤ 2 ^ w := Nat.pow_le_pow_right (by decide) hw
    have hsub : 3 + 2 ^ w - (2 ^ w - 1 - 2) = 6 := by omega
    have hmod : 6 % 2 ^ w ≤ 6 := Nat.mod_le _ _
    unfold timer_due usub
    rw [hsub, decide_eq_false_iff_not]
    omega

/-- Claim C2 on the 32-bit clock of the target: the clock wrapped between
`last = 2 ^ 32 - 3` and `now = 59997`, 60000 ms elapsed, and the report timer fires. -/
theorem timer_due_iff_elapsed_witness :
    4294967293 < 2 ^ ULONG_BITS ∧
      (timer_due ULONG_BITS 59997 4294967293 REPORT_TIME = true
        ↔ (REPORT_TIME : Int) ≤ ((59997 : Int) - (4294967293 : Int)) % (2 : Int) ^ ULONG_BITS) ∧
      (∀ d, d < 2 ^ ULONG_BITS → 59997 = (4294967293 + d) % 2 ^ ULONG_BITS →
        (timer_due ULONG_BITS 59997 4294967293 REPORT_TIME = true ↔ REPORT_TIME ≤ d)) ∧
      (2 ≤ ULONG_BITS → timer_due ULONG_BITS 3 (2 ^ ULONG_BITS - 1 - 2) 10 = false) :=
  ⟨by decide, timer_due_iff_elapsed ULONG_BITS 59997 4294967293 REPORT_TIME (by decide)⟩

/-! ## Claims: field names -/

/-- Claim C8: for every 8-byte sensor identity, `convertAddressToString` returns exactly
16 characters, all hexadecimal digits; characters `2i` and `2i+1` are the high and the low
hex digit of byte `i`, in byte order, the high digit being `0` for a byte below 16. -/
theorem convertAddressToString_hex (a : DeviceAddress) :
    (convertAddressToString a).length = 16 ∧
      (∀ c ∈ (convertAddressToString a).toList, isHexDigit c = true) ∧
      ∀ i : Fin 8,
        (convertAddressToString a).toList[2 * i.val]? = some (Nat.digitChar ((a i).val / 16)) ∧
        (convertAddressToString a).toList[2 * i.val + 1]? = some (Nat.digitChar ((a i).val % 16)) ∧
        ((a i).val < 16 → (convertAddressToString a).toList[2 * i.val]? = some '0') := by
  have hl := convertAddressToString_toList a
  rw [finRange_eight] at hl
  simp only [List.flatMap_cons, List.flatMap_nil, List.cons_append, List.nil_append, List.append_nil] at hl
  have hdiv : ∀ i : Fin 8, (a i).val / 16 < 16 := fun i => by have := (a i).isLt; omega
  have hmod : ∀ i : Fin 8, (a i).val % 16 < 16 := fun i => Nat.mod_lt _ (by decide)
  refine ⟨?_, ?_, ?_⟩
  · rw [String.length, ← String.toList, hl]; rfl
  · intro c hc
    rw [hl] at hc
    simp only [List.mem_cons, List.mem_singleton, List.not_mem_nil, or_false] at hc
    rcases hc with h | h | h | h | h | h | h | h | h | h | h | h | h | h | h | h <;>
      (rw [h]; first | exact isHexDigit_utoa_digit _ (hdiv _) | exact isHexDigit_utoa_digit _ (hmod _))
  · intro i
    rw [hl, ← utoa_digit_eq_digitChar _ (hdiv i), ← utoa_digit_eq_digitChar _ (hmod i)]
    have hz : ∀ j : Fin 8, (a j).val < 16 → utoa_digit ((a j).val / 16) = '0' := by
      intro j hj
      rw [Nat.div_eq_of_lt hj]
      rfl
    fin_cases i <;> exact ⟨rfl, rfl, fun h => congrArg some (hz _ h)⟩

/-! ## Lemmas: traces and frames -/

theorem lastPoll_append_poll (l : List (Event τ)) (b : Bool) (m : List (Event τ))
    (hm : ∀ e ∈ m, Event.pollResult e = none) :
    lastPoll (l ++ Event.statusPoll b :: m) = some b := by
  have hnil : m.filterMap Event.pollResult = [] := by
    rw [List.filterMap_eq_nil_iff]
    exact hm
  simp [lastPoll, List.filterMap_append, List.filterMap_cons, Event.pollResult, hnil]

theorem TraceStep.refl (s : State τ) : TraceStep s s [] := by
  simp [TraceStep]

theorem TraceStep.trans {s s1 s2 : State τ} {g h : List (Event τ)}
    (h1 : TraceStep s s1 g) (h2 : TraceStep s1 s2 h) : TraceStep s s2 (g ++ h) := by
  obtain ⟨a1, a2, a3, a4, a5, a6, a7, a8⟩ := h1
  obtain ⟨b1, b2, b3, b4, b5, b6, b7, b8⟩ := h2
  refine ⟨?_, ?_, ?_, ?_, ?_, ?_, ?_, ?_⟩
  · rw [b1, a1]
  · rw [b2, a2]
  · rw [b3, a3]
  · rw [b4, a4]
  · rw [b5, a5]
  · rw [b6, a6]
  · rw [b7, a7]
  · rw [b8, a8, List.append_assoc]

theorem poll_wifi_step (env : Env τ) (s : State τ) :
    TraceStep s (poll_wifi env s) [Event.statusPoll (env.wifiConnected s.polls)] := by
  simp [TraceStep, poll_wifi]

theorem emit_step (s : State τ) (e : Event τ) : TraceStep s (s.emit e) [e] := by
  simp [TraceStep, State.emit]

theorem blink_step (s : State τ) :
    TraceStep s (blink s) [Event.ledLow, Event.delay 500, Event.ledHigh, Event.delay 500] := by
  simp [TraceStep, blink, State.emit]

theorem wait_loop_never (env : Env τ) (n : Nat) (s : State τ)
    (h : ∀ k, k < n → env.wifiConnected (s.polls + k) = false) :
    wait_for_wifi_connect_loop env n s
      = { s with polls := s.polls + n,
                 trace := s.trace ++ (List.replicate n attemptEvents).flatten } := by
  induction n generalizing s with
  | zero => simp [wait_for_wifi_connect_loop]
  | succ n ih =>
    have h0 : env.wifiConnected s.polls = false := by simpa using h 0 (Nat.succ_pos n)
    have hrest : ∀ k, k < n →
        env.wifiConnected ((blink (poll_wifi env s)).polls + k) = false := by
      intro k hk
      have := h (k + 1) (Nat.succ_lt_succ hk)
      simpa [blink, poll_wifi, State.emit, Nat.add_assoc, Nat.add_comm 1 k] using this
    rw [wait_for_wifi_connect_loop, h0]
    simp only [Bool.false_eq_true, if_false]
    rw [ih _ hrest]
    simp [blink, poll_wifi, State.emit, h0, List.replicate_succ, attemptEvents, Nat.add_assoc,
      Nat.add_comm 1 n]

theorem lastPoll_append_of_some (l g : List (Event τ)) (b : Bool) (h : lastPoll g = some b) :
    lastPoll (l ++ g) = some b := by
  unfold lastPoll at h ⊢
  rw [List.filterMap_append, List.getLast?_append, h]
  rfl

theorem wait_loop_step (env : Env τ) (n : Nat) (s : State τ) :
    ∃ g, TraceStep s (wait_for_wifi_connect_loop env n s) g ∧ ∀ e ∈ g, Event.isGuard e = true := by
  induction n generalizing s with
  | zero => exact ⟨[], TraceStep.refl s, by simp⟩
  | succ n ih =>
    rw [wait_for_wifi_connect_loop]
    by_cases hc : env.wifiConnected s.polls = true
    · rw [if_pos hc]
      exact ⟨_, poll_wifi_step env s, by simp [Event.isGuard]⟩
    · rw [if_neg hc]
      obtain ⟨g, hg, hall⟩ := ih (blink (poll_wifi env s))
      refine ⟨_, ((poll_wifi_step env s).trans (blink_step _)).trans hg, ?_⟩
      intro e he
      simp only [List.mem_append, List.mem_cons, List.mem_singleton, List.not_mem_nil,
        or_false] at he
      rcases he with (h | h | h | h | h) | h
      · rw [h]; rfl
      · rw [h]; rfl
      · rw [h]; rfl
      · rw [h]; rfl
      · rw [h]; rfl
      · exact hall e h

theorem restart_after_step (ms : Nat) (s : State τ) :
    TraceStep s (restart_after ms s).state [Event.ledLow, Event.delay ms, Event.restart] := by
  simp [TraceStep, restart_after, Run.state, State.emit]

theorem wait_spec (env : Env τ) (s : State τ) :
    ∃ g, TraceStep s (wait_for_wifi_connect env s).state g ∧
      (∀ e ∈ g, Event.isGuard e = true) ∧
      lastPoll g = some (!(wait_for_wifi_connect env s).isRestarted) := by
  obtain ⟨g, hg, hall⟩ := wait_loop_step env WIFI_CONNECT_THRESHOLD s
  unfold wait_for_wifi_connect
  simp only
  by_cases hc : env.wifiConnected (wait_for_wifi_connect_loop env WIFI_CONNECT_THRESHOLD s).polls
      = true
  · rw [if_pos hc]
    refine ⟨g ++ [Event.statusPoll true], ?_, ?_, ?_⟩
    · have := hg.trans (poll_wifi_step env _)
      rwa [hc] at this
    · intro e he
      rcases List.mem_append.1 he with h | h
      · exact hall e h
      · rw [List.mem_singleton.1 h]; rfl
    · exact lastPoll_append_poll g true [] (by simp)
  · rw [if_neg hc]
    have hf : env.wifiConnected (wait_for_wifi_connect_loop env WIFI_CONNECT_THRESHOLD s).polls
        = false := by simpa using hc
    refine ⟨g ++ ([Event.statusPoll false] ++ [Event.ledLow, Event.delay 2000, Event.restart]),
      ?_, ?_, ?_⟩
    · have := hg.trans ((poll_wifi_step env _).trans (restart_after_step 2000 _))
      rwa [hf] at this
    · intro e he
      rcases List.mem_append.1 he with h | h
      · exact hall e h
      · simp only [List.singleton_append, List.mem_cons, List.mem_singleton, List.not_mem_nil,
          or_false] at h
        rcases h with h | h | h | h <;> (rw [h]; rfl)
    · exact lastPoll_append_poll g false _ (by simp [Event.pollResult])

theorem check_spec (env : Env τ) (s : State τ) :
    ∃ g, TraceStep s (check_wifi_and_reconnect_if_needed env s).state g ∧
      (∀ e ∈ g, Event.isGuard e = true) ∧
      lastPoll g = some (!(check_wifi_and_reconnect_if_needed env s).isRestarted) := by
  unfold check_wifi_and_reconnect_if_needed
  by_cases hc : env.wifiConnected s.polls = true
  · rw [if_pos hc]
    refine ⟨[Event.statusPoll true], ?_, by simp [Event.isGuard], ?_⟩
    · have := poll_wifi_step env s
      rwa [hc] at this
    · exact lastPoll_append_poll [] true [] (by simp)
  · rw [if_neg hc]
    have hf : env.wifiConnected s.polls = false := by simpa using hc
    obtain ⟨g, hg, hall, hlast⟩ := wait_spec env ((poll_wifi env s).emit Event.reconnect)
    refine ⟨[Event.statusPoll false] ++ [Event.reconnect] ++ g, ?_, ?_, ?_⟩
    · have := ((poll_wifi_step env s).trans (emit_step _ Event.reconnect)).trans hg
      rwa [hf] at this
    · intro e he
      simp only [List.singleton_append, List.cons_append, List.nil_append, List.mem_cons] at he
      rcases he with h | h | h
      · rw [h]; rfl
      · rw [h]; rfl
      · exact hall e h
    · exact lastPoll_append_of_some _ g _ hlast

/-! ## Claims: ConnectivityGuard -/

theorem check_never (env : Env τ) (s : State τ)
    (h : ∀ k, k < WIFI_CONNECT_THRESHOLD + 2 → env.wifiConnected (s.polls + k) = false) :
    check_wifi_and_reconnect_if_needed env s
      = Run.restarted
          { s with
            polls := s.polls + (WIFI_CONNECT_THRESHOLD + 2),
            trace := s.trace ++ ([Event.statusPoll false, Event.reconnect]
              ++ (List.replicate WIFI_CONNECT_THRESHOLD attemptEvents).flatten
              ++ [Event.statusPoll false, Event.ledLow, Event.delay 2000, Event.restart]) } := by
  have h0 : env.wifiConnected s.polls = false := by
    simpa using h 0 (by unfold WIFI_CONNECT_THRESHOLD; omega)
  have hloop : ∀ k, k < WIFI_CONNECT_THRESHOLD →
      env.wifiConnected (((poll_wifi env s).emit Event.reconnect).polls + k) = false := by
    intro k hk
    have := h (k + 1) (by omega)
    simpa [poll_wifi, State.emit, Nat.add_assoc, Nat.add_comm 1 k] using this
  have hlast : env.wifiConnected (s.polls + (1 + WIFI_CONNECT_THRESHOLD)) = false := by
    have := h (WIFI_CONNECT_THRESHOLD + 1) (by omega)
    rwa [Nat.add_comm WIFI_CONNECT_THRESHOLD 1] at this
  have hp : s.polls + (1 + (WIFI_CONNECT_THRESHOLD + 1)) = s.polls + (WIFI_CONNECT_THRESHOLD + 2) := by
    omega
  unfold check_wifi_and_reconnect_if_needed
  rw [h0]
  simp only [Bool.false_eq_true, if_false]
  unfold wait_for_wifi_connect
  simp only
  rw [wait_loop_never env _ _ hloop]
  simp [poll_wifi, State.emit, restart_after, h0, hlast, hp, Nat.add_assoc]

/-- Claim C3: when the connectivity predicate never becomes true, the connectivity guard
reads the status once, requests a reconnect, performs exactly
`WIFI_CONNECT_THRESHOLD = 25` polling attempts (a status read that finds the link down,
followed by the 2 x 500 ms blink delay), reads the status once more and then escalates to
the fatal restart. -/
theorem guard_exhausts_retry_budget (env : Env τ) (s : State τ)
    (h : ∀ k, env.wifiConnected k = false) :
    WIFI_CONNECT_THRESHOLD = 25 ∧
    check_wifi_and_reconnect_if_needed env s
      = Run.restarted
          { s with
            polls := s.polls + (WIFI_CONNECT_THRESHOLD + 2),
            trace := s.trace ++ ([Event.statusPoll false, Event.reconnect]
              ++ (List.replicate WIFI_CONNECT_THRESHOLD attemptEvents).flatten
              ++ [Event.statusPoll false, Event.ledLow, Event.delay 2000, Event.restart]) } :=
  ⟨rfl, check_never env s fun k _ => h (s.polls + k)⟩

/-- Claim C3 at power-on with a link that never comes up. -/
theorem guard_exhausts_retry_budget_witness :
    (∀ k, neverConnectedEnv.wifiConnected k = false) ∧
    WIFI_CONNECT_THRESHOLD = 25 ∧
    check_wifi_and_reconnect_if_needed neverConnectedEnv (State.initial : State Int)
      = Run.restarted
          { (State.initial : State Int) with
            polls := (State.initial : State Int).polls + (WIFI_CONNECT_THRESHOLD + 2),
            trace := (State.initial : State Int).trace
              ++ ([Event.statusPoll false, Event.reconnect]
              ++ (List.replicate WIFI_CONNECT_THRESHOLD attemptEvents).flatten
              ++ [Event.statusPoll false, Event.ledLow, Event.delay 2000, Event.restart]) } :=
  ⟨fun _ => rfl, guard_exhausts_retry_budget neverConnectedEnv State.initial fun _ => rfl⟩

/-! ## Lemmas: ReportAssembler -/

theorem rosterFields_zero (env : Env τ) (l : List DeviceAddress) (i : Nat) :
    rosterFields env l 0 i = [] := by
  simp [rosterFields]

theorem rosterFields_succ (env : Env τ) (l : List DeviceAddress) (n i : Nat) :
    rosterFields env l (n + 1) i
      = temperatureField env (l.getD i zeroAddress) :: rosterFields env l n (i + 1) := by
  simp [rosterFields, List.range_succ_eq_map, Function.comp_def, Nat.add_assoc, Nat.add_comm 1]

theorem rosterFields_cons (env : Env τ) (a : DeviceAddress) (rest : List DeviceAddress)
    (n i : Nat) : rosterFields env (a :: rest) n (i + 1) = rosterFields env rest n i := by
  unfold rosterFields
  apply List.map_congr_left
  intro j _
  have hj : i + 1 + j = (i + j) + 1 := by omega
  rw [hj, List.getD_cons_succ]

theorem rosterFields_drop (env : Env τ) (l : List DeviceAddress) (i : Nat) :
    rosterFields env l (l.length - i) i = (l.drop i).map (temperatureField env) := by
  induction l generalizing i with
  | nil => simp [rosterFields]
  | cons a rest ih =>
    cases i with
    | zero =>
      have h := ih 0
      simp only [Nat.sub_zero, List.drop_zero] at h
      simp only [List.length_cons, Nat.sub_zero, List.drop_zero, List.map_cons]
      rw [rosterFields_succ, rosterFields_cons, h]
      simp
    | succ i =>
      simp only [List.length_cons, Nat.add_sub_add_right, List.drop_succ_cons]
      rw [rosterFields_cons, ih i]

theorem rosterFields_full (env : Env τ) (l : List DeviceAddress) :
    rosterFields env l l.length 0 = l.map (temperatureField env) := by
  simpa using rosterFields_drop env l 0

theorem add_temperature_fields_eq (env : Env τ) (n i : Nat) (s : State τ) :
    add_temperature_fields env n i s
      = { s with
          heat_pump_metrics :=
            { fields := s.heat_pump_metrics.fields ++ rosterFields env s.device_addresses n i },
          trace := s.trace ++ (rosterFields env s.device_addresses n i).map addFieldEvent } := by
  induction n generalizing i s with
  | zero => simp [add_temperature_fields, rosterFields_zero]
  | succ n ih =>
    rw [add_temperature_fields, ih, rosterFields_succ]
    simp [State.emit, Point.addField, temperatureField, addFieldEvent]

theorem assemble_report_eq (env : Env τ) (s : State τ) :
    assemble_report env s
      = { s with
          electrical_energy_meter_impulses := 0,
          heat_pump_metrics :=
            { fields := rosterFields env s.device_addresses s.temperature_sensors_count 0
                ++ [("electrical_impulses", FieldValue.count s.electrical_energy_meter_impulses)] },
          trace := s.trace
            ++ [Event.noInterrupts, Event.interrupts, Event.clearFields, Event.requestTemperatures]
            ++ (rosterFields env s.device_addresses s.temperature_sensors_count 0).map addFieldEvent
            ++ [Event.addField "electrical_impulses"
                  (FieldValue.count s.electrical_energy_meter_impulses)] } := by
  unfold assemble_report
  simp only [add_temperature_fields_eq]
  simp [drain_impulses, drain, State.emit, Point.addField, Point.clearFields]

/-! ## Claims: ReportAssembler -/

/-- Claim C4: for every roster of `N` identities, every pending pulse count, every driver
read function and every prior content of the record, the record assembled in a report cycle
has exactly `N + 1` fields: field `i < N` is keyed by the hex name of roster identity `i` and
holds the driver's read for that identity unchanged, the last field is
`electrical_impulses` with the drained pulse count, and nothing of an earlier cycle
remains. -/
theorem report_has_roster_fields (env : Env τ) (s : State τ)
    (h : s.device_addresses.length = s.temperature_sensors_count) :
    (assemble_report env s).heat_pump_metrics.fields
        = s.device_addresses.map
            (fun address =>
              (convertAddressToString address, FieldValue.temperature (env.getTempC address)))
          ++ [("electrical_impulses",
                FieldValue.count (drain s.electrical_energy_meter_impulses).1)] ∧
      (assemble_report env s).heat_pump_metrics.fields.length
        = s.temperature_sensors_count + 1 ∧
      (∀ i (hi : i < s.device_addresses.length),
        (assemble_report env s).heat_pump_metrics.fields[i]?
          = some (convertAddressToString (s.device_addresses.get ⟨i, hi⟩),
              FieldValue.temperature (env.getTempC (s.device_addresses.get ⟨i, hi⟩)))) ∧
      (assemble_report env s).heat_pump_metrics.fields[s.temperature_sensors_count]?
        = some ("electrical_impulses",
            FieldValue.count (drain s.electrical_energy_meter_impulses).1) := by
  have hf : (assemble_report env s).heat_pump_metrics.fields
      = s.device_addresses.map (temperatureField env)
        ++ [("electrical_impulses", FieldValue.count s.electrical_energy_meter_impulses)] := by
    rw [assemble_report_eq, ← h, rosterFields_full]
  refine ⟨hf, ?_, ?_, ?_⟩
  · rw [hf, List.length_append, List.length_map, h]
    rfl
  · intro i hi
    rw [hf, List.getElem?_append_left (by simpa using hi)]
    simp [temperatureField, List.getElem?_eq_getElem hi]
  · rw [hf, ← h, List.getElem?_append_right (by simp)]
    simp [drain]

/-- Claim C4 at the spec's example: a roster of 3, 42 pulses pending, a -127 read and a
stale field in the record give 4 fields. -/
theorem report_has_roster_fields_witness :
    exampleRosterState.device_addresses.length = exampleRosterState.temperature_sensors_count ∧
    ((assemble_report exampleEnv exampleRosterState).heat_pump_metrics.fields
        = exampleRosterState.device_addresses.map
            (fun address =>
              (convertAddressToString address,
                FieldValue.temperature (exampleEnv.getTempC address)))
          ++ [("electrical_impulses",
                FieldValue.count (drain exampleRosterState.electrical_energy_meter_impulses).1)] ∧
      (assemble_report exampleEnv exampleRosterState).heat_pump_metrics.fields.length
        = exampleRosterState.temperature_sensors_count + 1 ∧
      (∀ i (hi : i < exampleRosterState.device_addresses.length),
        (assemble_report exampleEnv exampleRosterState).heat_pump_metrics.fields[i]?
          = some (convertAddressToString (exampleRosterState.device_addresses.get ⟨i, hi⟩),
              FieldValue.temperature
                (exampleEnv.getTempC (exampleRosterState.device_addresses.get ⟨i, hi⟩)))) ∧
      (assemble_report exampleEnv exampleRosterState).heat_pump_metrics.fields[
          exampleRosterState.temperature_sensors_count]?
        = some ("electrical_impulses",
            FieldValue.count (drain exampleRosterState.electrical_energy_meter_impulses).1)) :=
  ⟨rfl, report_has_roster_fields exampleEnv exampleRosterState rfl⟩

/-- The record assembled at the spec's example, evaluated. -/
theorem example_report_fields :
    (assemble_report exampleEnv exampleRosterState).heat_pump_metrics.fields
      = [("a1b2c3d4e5f60708", FieldValue.temperature 21),
         ("a1b2c3d4e5f60709", FieldValue.temperature (-127)),
         ("a1b2c3d4e5f6070a", FieldValue.temperature 21),
         ("electrical_impulses", FieldValue.count 42)] := by
  decide

/-- Claim C9, as stated, fails: the identity with bytes `A1 B2 C3 D4 E5 F6 07 08` does not
get the field name `A1B2C3D4E5F60708`; `utoa` writes lower-case digits. -/
theorem example_name_not_upper_case :
    convertAddressToString (exampleIdentity 0x08) ≠ "A1B2C3D4E5F60708" := by
  decide

/-- Claim C9, amended: the roster identities of the spec's example get the lower-case
hex names `a1b2c3d4e5f60708`, `a1b2c3d4e5f60709` and `a1b2c3d4e5f6070a`, and these key the
temperature fields of the report, in roster order, before `electrical_impulses`. -/
theorem example_names_lower_case (env : Env τ) (s : State τ) :
    convertAddressToString (exampleIdentity 0x08) = "a1b2c3d4e5f60708" ∧
      convertAddressToString (exampleIdentity 0x09) = "a1b2c3d4e5f60709" ∧
      convertAddressToString (exampleIdentity 0x0A) = "a1b2c3d4e5f6070a" ∧
      ((assemble_report env
          { s with
            temperature_sensors_count := 3,
            device_addresses :=
              [exampleIdentity 0x08, exampleIdentity 0x09, exampleIdentity 0x0A] }
        ).heat_pump_metrics.fields.map Prod.fst
        = ["a1b2c3d4e5f60708", "a1b2c3d4e5f60709", "a1b2c3d4e5f6070a",
            "electrical_impulses"]) := by
  have h8 : convertAddressToString (exampleIdentity 0x08) = "a1b2c3d4e5f60708" := by decide
  have h9 : convertAddressToString (exampleIdentity 0x09) = "a1b2c3d4e5f60709" := by decide
  have hA : convertAddressToString (exampleIdentity 0x0A) = "a1b2c3d4e5f6070a" := by decide
  refine ⟨h8, h9, hA, ?_⟩
  rw [assemble_report_eq]
  have hr := rosterFields_full env
    [exampleIdentity 0x08, exampleIdentity 0x09, exampleIdentity 0x0A]
  simp only [List.length_cons, List.length_nil, Nat.zero_add, Nat.reduceAdd] at hr
  simp only [hr]
  simp [temperatureField, h8, h9, hA]

/-! ## Lemmas and claims: SensorRoster -/

theorem isReport_of_isGuard (e : Event τ) (h : Event.isGuard e = true) :
    Event.isReport e = false := by
  cases e <;> simp_all [Event.isGuard, Event.isReport]

theorem resolve_fails_at (env : Env τ) (m n i : Nat) (s : State τ) (hm : m < n)
    (hok : ∀ j, j < m → (env.getAddress (i + j)).isSome = true)
    (hfail : env.getAddress (i + m) = none) :
    (resolve_addresses env n i s).isRestarted = true ∧
      (resolve_addresses env n i s).state.trace
        = s.trace ++ (List.range m).map (fun j => Event.getAddress (i + j) true)
          ++ [Event.getAddress (i + m) false, Event.ledLow, Event.delay 3000, Event.restart] := by
  induction m generalizing n i s with
  | zero =>
    obtain ⟨n, rfl⟩ : ∃ n1, n = n1 + 1 := ⟨n - 1, by omega⟩
    rw [Nat.add_zero] at hfail
    simp [resolve_addresses, hfail, restart_after, Run.isRestarted, Run.state, State.emit]
  | succ m ih =>
    obtain ⟨n, rfl⟩ : ∃ n1, n = n1 + 1 := ⟨n - 1, by omega⟩
    have h0 := hok 0 (Nat.succ_pos m)
    rw [Nat.add_zero, Option.isSome_iff_exists] at h0
    obtain ⟨a, ha⟩ := h0
    have hok1 : ∀ j, j < m → (env.getAddress (i + 1 + j)).isSome = true := by
      intro j hj
      have := hok (j + 1) (Nat.succ_lt_succ hj)
      rwa [show i + (j + 1) = i + 1 + j by omega] at this
    have hfail1 : env.getAddress (i + 1 + m) = none := by
      rwa [show i + (m + 1) = i + 1 + m by omega] at hfail
    have := ih n (i + 1)
      ({ s with device_addresses := s.device_addresses.set i a }.emit (Event.getAddress i true))
      (by omega) hok1 hfail1
    rw [resolve_addresses]
    simp only [ha]
    refine ⟨this.1, ?_⟩
    rw [this.2]
    simp [State.emit, List.range_succ_eq_map, Function.comp_def, Nat.add_assoc, Nat.add_comm 1]

theorem configure_fails_at (env : Env τ) (k : Nat) (s : State τ)
    (hk : k < env.getDS18Count.val)
    (hok : ∀ i, i < k → (env.getAddress i).isSome = true)
    (hfail : env.getAddress k = none) :
    (configure_temperature_sensors env s).isRestarted = true ∧
      (configure_temperature_sensors env s).state.trace
        = s.trace ++ [Event.sensorsBegin]
          ++ (List.range k).map (fun i => Event.getAddress i true)
          ++ [Event.getAddress k false, Event.ledLow, Event.delay 3000, Event.restart] := by
  have := resolve_fails_at env k env.getDS18Count.val 0
    { s.emit Event.sensorsBegin with
      temperature_sensors_count := env.getDS18Count.val,
      device_addresses := List.replicate env.getDS18Count.val zeroAddress }
    hk (by simpa using hok) (by simpa using hfail)
  unfold configure_temperature_sensors
  refine ⟨this.1, ?_⟩
  rw [this.2]
  simp [State.emit]

theorem setup_fails (env : Env τ) (k : Nat) (now : Nat) (s : State τ)
    (hk : k < env.getDS18Count.val)
    (hok : ∀ i, i < k → (env.getAddress i).isSome = true)
    (hfail : env.getAddress k = none) :
    (setup env now s).isRestarted = true ∧
      ∃ g, (setup env now s).state.trace = s.trace ++ g ∧
        ∀ e ∈ g, Event.isReport e = false := by
  obtain ⟨g, hg, hall, -⟩ := wait_spec env (s.emit Event.wifiBegin)
  unfold setup
  cases hw : wait_for_wifi_connect env (s.emit Event.wifiBegin) with
  | restarted s1 =>
    rw [hw] at hg
    refine ⟨rfl, [Event.wifiBegin] ++ g, ?_, ?_⟩
    · have := (emit_step s Event.wifiBegin).trans hg
      simpa [Run.bind, Run.state] using this.2.2.2.2.2.2.2
    · intro e he
      rcases List.mem_append.1 he with h | h
      · rw [List.mem_singleton.1 h]; rfl
      · exact isReport_of_isGuard e (hall e h)
  | returned s1 =>
    rw [hw] at hg
    have hc := configure_fails_at env k (s1.emit Event.attachInterrupt) hk hok hfail
    simp only [Run.bind]
    cases hcfg : configure_temperature_sensors env (s1.emit Event.attachInterrupt) with
    | returned s2 =>
      rw [hcfg] at hc
      simp [Run.isRestarted] at hc
    | restarted s2 =>
      rw [hcfg] at hc
      refine ⟨rfl, [Event.wifiBegin] ++ g ++ [Event.attachInterrupt] ++ [Event.sensorsBegin]
          ++ (List.range k).map (fun i => Event.getAddress i true)
          ++ [Event.getAddress k false, Event.ledLow, Event.delay 3000, Event.restart], ?_, ?_⟩
      · have h1 := ((emit_step s Event.wifiBegin).trans hg).2.2.2.2.2.2.2
        simp only [Run.state] at hc h1 ⊢
        rw [hc.2]
        simp [State.emit, h1]
      · intro e he
        simp only [List.mem_append, List.mem_map, List.mem_cons, List.mem_singleton,
          List.not_mem_nil, or_false] at he
        rcases he with ((((h | h) | h) | h) | ⟨i, -, h⟩) | h | h | h | h
        · rw [h]; rfl
        · exact isReport_of_isGuard e (hall e h)
        · rw [h]; rfl
        · rw [h]; rfl
        · rw [← h]; rfl
        · rw [h]; rfl
        · rw [h]; rfl
        · rw [h]; rfl
        · rw [h]; rfl

/-- Claim C5: if address resolution succeeds for every index below `k` and fails at index
`k < N`, `configure_temperature_sensors` escalates to the fatal restart at index `k`: the
indices resolved are exactly `0 .. k`, `setup` does not complete, and no event of building
or sending a report occurs in that boot, whatever the clock does. -/
theorem failed_resolution_is_fatal (env : Env τ) (k : Nat)
    (hk : k < env.getDS18Count.val)
    (hok : ∀ i, i < k → (env.getAddress i).isSome = true)
    (hfail : env.getAddress k = none) :
    (∀ s : State τ,
      (configure_temperature_sensors env s).isRestarted = true ∧
        (configure_temperature_sensors env s).state.trace
          = s.trace ++ [Event.sensorsBegin]
            ++ (List.range k).map (fun i => Event.getAddress i true)
            ++ [Event.getAddress k false, Event.ledLow, Event.delay 3000, Event.restart]) ∧
      (∀ (now : Nat) (s : State τ), (setup env now s).isRestarted = true) ∧
      (∀ (now : Nat) (clock : List Nat),
        (boot env now clock).isRestarted = true ∧
          ∀ e ∈ (boot env now clock).state.trace, Event.isReport e = false) := by
  refine ⟨fun s => configure_fails_at env k s hk hok hfail,
    fun now s => (setup_fails env k now s hk hok hfail).1, ?_⟩
  intro now clock
  obtain ⟨hr, g, hg, hall⟩ := setup_fails env k now (State.initial : State τ) hk hok hfail
  unfold boot
  cases hs : setup env now (State.initial : State τ) with
  | returned s1 =>
    rw [hs] at hr
    simp [Run.isRestarted] at hr
  | restarted s1 =>
    rw [hs] at hg
    refine ⟨rfl, ?_⟩
    intro e he
    simp only [Run.bind, Run.state] at he hg
    rw [hg] at he
    simp only [State.initial, List.nil_append] at he
    exact hall e he

/-- Claim C5 at the spec's example: resolution fails at index 1 of 3. -/
theorem failed_resolution_is_fatal_witness :
    (1 < failingBusEnv.getDS18Count.val ∧
      (∀ i, i < 1 → (failingBusEnv.getAddress i).isSome = true) ∧
      failingBusEnv.getAddress 1 = none) ∧
    ((∀ s : State Int,
      (configure_temperature_sensors failingBusEnv s).isRestarted = true ∧
        (configure_temperature_sensors failingBusEnv s).state.trace
          = s.trace ++ [Event.sensorsBegin]
            ++ (List.range 1).map (fun i => Event.getAddress i true)
            ++ [Event.getAddress 1 false, Event.ledLow, Event.delay 3000, Event.restart]) ∧
      (∀ (now : Nat) (s : State Int), (setup failingBusEnv now s).isRestarted = true) ∧
      (∀ (now : Nat) (clock : List Nat),
        (boot failingBusEnv now clock).isRestarted = true ∧
          ∀ e ∈ (boot failingBusEnv now clock).state.trace, Event.isReport e = false)) :=
  ⟨⟨by decide, by decide, by decide⟩,
    failed_resolution_is_fatal failingBusEnv 1 (by decide) (by decide) (by decide)⟩

/-! ## Lemmas and claims: timers -/

theorem transmit_spec (env : Env τ) (s : State τ) :
    (transmit env s).isRestarted = false ∧
      (transmit env s).state.report_base_time = s.report_base_time ∧
      (transmit env s).state.wifi_check_base_time = s.wifi_check_base_time ∧
      (transmit env s).state.trace
        = s.trace ++ ([Event.println s.heat_pump_metrics.fields, Event.ledLow,
              Event.writePoint s.heat_pump_metrics.fields (env.writePoint s.writes)]
            ++ if env.writePoint s.writes = true then [Event.ledHigh] else []) := by
  unfold transmit
  cases hw : env.writePoint s.writes <;>
    simp [State.emit, Run.isRestarted, Run.state, hw]

theorem Run.bind_returned (s : σ) (f : σ → Run σ) : (Run.returned s).bind f = f s := rfl

theorem Run.bind_restarted (s : σ) (f : σ → Run σ) :
    (Run.restarted s).bind f = Run.restarted s := rfl

theorem assemble_report_base_times (env : Env τ) (s : State τ) :
    (assemble_report env s).report_base_time = s.report_base_time ∧
      (assemble_report env s).wifi_check_base_time = s.wifi_check_base_time := by
  rw [assemble_report_eq]
  exact ⟨rfl, rfl⟩

theorem report_cycle_base_times (env : Env τ) (time_now : Nat) (s : State τ) :
    (report_cycle env time_now s).state.report_base_time = time_now ∧
      (report_cycle env time_now s).state.wifi_check_base_time = s.wifi_check_base_time := by
  obtain ⟨g, hg, -, -⟩ := check_spec env
    (assemble_report env { s with report_base_time := time_now })
  obtain ⟨ha1, ha2⟩ := assemble_report_base_times env { s with report_base_time := time_now }
  unfold report_cycle
  cases hc : check_wifi_and_reconnect_if_needed env
      (assemble_report env { s with report_base_time := time_now }) with
  | restarted s1 =>
    rw [hc] at hg
    rw [Run.bind_restarted]
    simp only [Run.state] at hg ⊢
    rw [hg.1, hg.2.1, ha1, ha2]
    exact ⟨rfl, rfl⟩
  | returned s1 =>
    rw [hc] at hg
    rw [Run.bind_returned]
    simp only [Run.state] at hg
    obtain ⟨-, h1, h2, -⟩ := transmit_spec env s1
    rw [h1, h2, hg.1, hg.2.1, ha1, ha2]
    exact ⟨rfl, rfl⟩

theorem health_check_base_times (env : Env τ) (time_now : Nat) (s : State τ) :
    (health_check env time_now s).state.report_base_time = s.report_base_time ∧
      (health_check env time_now s).state.wifi_check_base_time
        = if timer_due ULONG_BITS time_now s.wifi_check_base_time WIFI_HEALTH_CHECK_TIME = true
          then time_now else s.wifi_check_base_time := by
  unfold health_check
  by_cases hd : timer_due ULONG_BITS time_now s.wifi_check_base_time WIFI_HEALTH_CHECK_TIME = true
  · rw [if_pos hd, if_pos hd]
    obtain ⟨g, hg, -, -⟩ := check_spec env { s with wifi_check_base_time := time_now }
    exact ⟨hg.1, hg.2.1⟩
  · rw [if_neg hd, if_neg hd]
    exact ⟨rfl, rfl⟩

theorem loop_base_times (env : Env τ) (time_now : Nat) (s : State τ) :
    (loop env time_now s).state.wifi_check_base_time
        = (if timer_due ULONG_BITS time_now s.wifi_check_base_time WIFI_HEALTH_CHECK_TIME = true
          then time_now else s.wifi_check_base_time) ∧
      (loop env time_now s).state.report_base_time
        = (if (health_check env time_now s).isRestarted = true then s.report_base_time
          else if timer_due ULONG_BITS time_now s.report_base_time REPORT_TIME = true
          then time_now else s.report_base_time) := by
  obtain ⟨hr, hw⟩ := health_check_base_times env time_now s
  unfold loop
  cases hh : health_check env time_now s with
  | restarted s1 =>
    rw [hh] at hr hw
    simp only [Run.state] at hr hw
    rw [Run.bind_restarted]
    simp only [Run.state, Run.isRestarted, if_true]
    exact ⟨hw, hr⟩
  | returned s1 =>
    rw [hh] at hr hw
    simp only [Run.state] at hr hw
    rw [Run.bind_returned]
    simp only [Run.isRestarted, Bool.false_eq_true, if_false]
    rw [hr]
    by_cases hd : timer_due ULONG_BITS time_now s.report_base_time REPORT_TIME = true
    · rw [if_pos hd, if_pos hd]
      obtain ⟨h1, h2⟩ := report_cycle_base_times env time_now s1
      rw [h1, h2]
      exact ⟨hw, rfl⟩
    · rw [if_neg hd, if_neg hd]
      exact ⟨hw, hr⟩

/-- Claim C7: in every loop iteration with sampled timestamp `now`, the health-check
timer's last-fired value becomes exactly `now` when its test is true and is unchanged
otherwise, whatever the report timer does; the report timer's last-fired value becomes
exactly `now` when its test is reached and true and is unchanged otherwise, whatever the
health-check timer does (its test is not reached only when the health-check guard
restarts the device). -/
theorem timers_rearm_independently (env : Env τ) (time_now : Nat) (s : State τ) :
    (loop env time_now s).state.wifi_check_base_time
        = (if timer_due ULONG_BITS time_now s.wifi_check_base_time WIFI_HEALTH_CHECK_TIME = true
          then time_now else s.wifi_check_base_time) ∧
      (loop env time_now s).state.report_base_time
        = (if (health_check env time_now s).isRestarted = true then s.report_base_time
          else if timer_due ULONG_BITS time_now s.report_base_time REPORT_TIME = true
          then time_now else s.report_base_time) :=
  loop_base_times env time_now s

/-! ## Lemmas and claims: reachable states -/

theorem setup_returned_bases (env : Env τ) (now : Nat) (s0 s : State τ)
    (h : setup env now s0 = Run.returned s) :
    s.wifi_check_base_time = s.report_base_time := by
  unfold setup at h
  cases h1 : wait_for_wifi_connect env (s0.emit Event.wifiBegin) with
  | restarted s1 => rw [h1, Run.bind_restarted] at h; cases h
  | returned s1 =>
    rw [h1, Run.bind_returned] at h
    cases h2 : configure_temperature_sensors env (s1.emit Event.attachInterrupt) with
    | restarted s2 => rw [h2, Run.bind_restarted] at h; cases h
    | returned s2 =>
      rw [h2, Run.bind_returned] at h
      cases h3 : connect_influx_client env (s2.emit Event.timeSync) with
      | restarted s3 => rw [h3, Run.bind_restarted] at h; cases h
      | returned s3 =>
        rw [h3, Run.bind_returned] at h
        cases h
        rfl

theorem loop_returned_health (env : Env τ) (time_now : Nat) (s s1 : State τ)
    (h : loop env time_now s = Run.returned s1) :
    (health_check env time_now s).isRestarted = false := by
  unfold loop at h
  cases hh : health_check env time_now s with
  | restarted s2 => rw [hh, Run.bind_restarted] at h; cases h
  | returned s2 => rfl

theorem reachable_bases_equal (s : State τ) (h : Reachable s) :
    s.wifi_check_base_time = s.report_base_time := by
  induction h with
  | boot env now s hs => exact setup_returned_bases env now _ s hs
  | iteration env time_now s s1 _ hl ih =>
    obtain ⟨hw, hr⟩ := loop_base_times env time_now s
    have hh := loop_returned_health env time_now s s1 hl
    rw [hl] at hw hr
    simp only [Run.state] at hw hr
    rw [hh] at hr
    simp only [Bool.false_eq_true, if_false] at hr
    rw [hw, hr, ih]
    rfl
  | pulse s _ ih => exact ih

theorem Run.bind_congr (r : Run σ) (f g : σ → Run σ)
    (h : ∀ s, r = Run.returned s → f s = g s) : r.bind f = r.bind g := by
  cases r with
  | returned s => exact h s rfl
  | restarted s => rfl

/-- Claim C10: in every state reachable from `setup` by loop iterations at any clock
readings, `wifi_check_base_time` equals `report_base_time`; hence in every iteration the
health-check test is true iff the report test is true, and the iteration either runs the
health-check guard followed (unless the guard restarts the device) by the report cycle, or
does nothing. -/
theorem cadences_never_separate (s : State τ) (h : Reachable s) :
    s.wifi_check_base_time = s.report_base_time ∧
      (∀ now : Nat,
        timer_due ULONG_BITS now s.wifi_check_base_time WIFI_HEALTH_CHECK_TIME
          = timer_due ULONG_BITS now s.report_base_time REPORT_TIME) ∧
      (∀ (env : Env τ) (now : Nat),
        loop env now s
          = if timer_due ULONG_BITS now s.report_base_time REPORT_TIME = true then
              (check_wifi_and_reconnect_if_needed env
                { s with wifi_check_base_time := now }).bind (report_cycle env now)
            else Run.returned s) := by
  have heq := reachable_bases_equal s h
  have hdue : ∀ now : Nat,
      timer_due ULONG_BITS now s.wifi_check_base_time WIFI_HEALTH_CHECK_TIME
        = timer_due ULONG_BITS now s.report_base_time REPORT_TIME := by
    intro now
    rw [heq]
    rfl
  refine ⟨heq, hdue, ?_⟩
  intro env now
  unfold loop health_check
  rw [hdue now]
  by_cases hd : timer_due ULONG_BITS now s.report_base_time REPORT_TIME = true
  · rw [if_pos hd, if_pos hd]
    apply Run.bind_congr
    intro s1 hs1
    obtain ⟨g, hg, -, -⟩ := check_spec env { s with wifi_check_base_time := now }
    rw [hs1] at hg
    have : s1.report_base_time = s.report_base_time := hg.1
    rw [this, if_pos hd]
  · rw [if_neg hd, if_neg hd, Run.bind_returned, if_neg hd]

/-- Claim C10 at the state `setup` leaves with the example collaborators. -/
theorem cadences_never_separate_witness :
    Reachable exampleBootState ∧
    (exampleBootState.wifi_check_base_time = exampleBootState.report_base_time ∧
      (∀ now : Nat,
        timer_due ULONG_BITS now exampleBootState.wifi_check_base_time WIFI_HEALTH_CHECK_TIME
          = timer_due ULONG_BITS now exampleBootState.report_base_time REPORT_TIME) ∧
      (∀ (env : Env Int) (now : Nat),
        loop env now exampleBootState
          = if timer_due ULONG_BITS now exampleBootState.report_base_time REPORT_TIME = true then
              (check_wifi_and_reconnect_if_needed env
                { exampleBootState with wifi_check_base_time := now }).bind (report_cycle env now)
            else Run.returned exampleBootState)) :=
  ⟨Reachable.boot exampleEnv 5 exampleBootState rfl,
    cadences_never_separate exampleBootState (Reachable.boot exampleEnv 5 exampleBootState rfl)⟩

/-! ## Lemmas and claims: the report cycle -/

theorem isWrite_of_isGuard (e : Event τ) (h : Event.isGuard e = true) :
    Event.isWrite e = false := by
  cases e <;> simp_all [Event.isGuard, Event.isWrite]

theorem assemble_report_trace (env : Env τ) (s : State τ) :
    ∃ asm : List (Event τ),
      (assemble_report env s).trace = s.trace ++ asm ∧
      asm.getLast? = some (Event.addField "electrical_impulses"
        (FieldValue.count s.electrical_energy_meter_impulses)) ∧
      (∀ e ∈ asm, Event.isGuard e = false ∧ Event.isWrite e = false) ∧
      (assemble_report env s).polls = s.polls ∧
      (assemble_report env s).writes = s.writes := by
  refine ⟨[Event.noInterrupts, Event.interrupts, Event.clearFields, Event.requestTemperatures]
      ++ (rosterFields env s.device_addresses s.temperature_sensors_count 0).map addFieldEvent
      ++ [Event.addField "electrical_impulses"
            (FieldValue.count s.electrical_energy_meter_impulses)], ?_, ?_, ?_, ?_, ?_⟩
  · rw [assemble_report_eq]
    simp
  · rw [List.getLast?_append]
    rfl
  · intro e he
    simp only [List.mem_append, List.mem_map, List.mem_cons, List.mem_singleton,
      List.not_mem_nil, or_false] at he
    rcases he with ((h | h | h | h) | ⟨f, -, h⟩) | h
    · rw [h]; exact ⟨rfl, rfl⟩
    · rw [h]; exact ⟨rfl, rfl⟩
    · rw [h]; exact ⟨rfl, rfl⟩
    · rw [h]; exact ⟨rfl, rfl⟩
    · rw [← h]; exact ⟨rfl, rfl⟩
    · rw [h]; exact ⟨rfl, rfl⟩
  · rw [assemble_report_eq]
  · rw [assemble_report_eq]

/-- Claim C6: in every report cycle the events come in this order: the assembly of the
record, ending with the `electrical_impulses` field; then the connectivity guard; then,
only if the guard returned, the print and the write of the assembled record.  The write is
issued only when the guard's most recent status poll returned connected; when the guard
restarts the device (as it does when the link stays down through the retry budget) the cycle
ends there and no write is issued. -/
theorem write_follows_connected_poll (env : Env τ) (time_now : Nat) (s : State τ) :
    ∃ asm g t : List (Event τ),
      (assemble_report env { s with report_base_time := time_now }).trace = s.trace ++ asm ∧
      asm.getLast? = some (Event.addField "electrical_impulses"
        (FieldValue.count s.electrical_energy_meter_impulses)) ∧
      (∀ e ∈ asm, Event.isGuard e = false ∧ Event.isWrite e = false) ∧
      (check_wifi_and_reconnect_if_needed env
          (assemble_report env { s with report_base_time := time_now })).state.trace
        = s.trace ++ asm ++ g ∧
      (∀ e ∈ g, Event.isGuard e = true ∧ Event.isWrite e = false) ∧
      (report_cycle env time_now s).state.trace = s.trace ++ asm ++ g ++ t ∧
      lastPoll g = some (!(report_cycle env time_now s).isRestarted) ∧
      ((report_cycle env time_now s).isRestarted = false →
        t = [Event.println
                (assemble_report env { s with report_base_time := time_now }).heat_pump_metrics.fields,
              Event.ledLow,
              Event.writePoint
                (assemble_report env { s with report_base_time := time_now }).heat_pump_metrics.fields
                (env.writePoint s.writes)]
            ++ if env.writePoint s.writes = true then [Event.ledHigh] else []) ∧
      ((report_cycle env time_now s).isRestarted = true →
        t = [] ∧ ∀ e ∈ asm ++ g ++ t, Event.isWrite e = false) ∧
      ((∀ k, k < WIFI_CONNECT_THRESHOLD + 2 → env.wifiConnected (s.polls + k) = false) →
        (report_cycle env time_now s).isRestarted = true) := by
  obtain ⟨asm, hasm, hlastasm, hallasm, hpolls, hwrites⟩ :=
    assemble_report_trace env { s with report_base_time := time_now }
  obtain ⟨g, hg, hall, hlast⟩ := check_spec env
    (assemble_report env { s with report_base_time := time_now })
  have hrc : report_cycle env time_now s
      = (check_wifi_and_reconnect_if_needed env
          (assemble_report env { s with report_base_time := time_now })).bind (transmit env) := rfl
  have hnever : (∀ k, k < WIFI_CONNECT_THRESHOLD + 2 → env.wifiConnected (s.polls + k) = false) →
      (check_wifi_and_reconnect_if_needed env
          (assemble_report env { s with report_base_time := time_now })).isRestarted = true := by
    intro hk
    rw [check_never env _ (by rw [hpolls]; exact hk)]
    rfl
  have hgtrace := hg.2.2.2.2.2.2.2
  rw [hasm] at hgtrace
  have hallg : ∀ e ∈ g, Event.isGuard e = true ∧ Event.isWrite e = false :=
    fun e he => ⟨hall e he, isWrite_of_isGuard e (hall e he)⟩
  cases hc : check_wifi_and_reconnect_if_needed env
      (assemble_report env { s with report_base_time := time_now }) with
  | restarted s1 =>
    rw [hc] at hg hlast hnever hgtrace
    have hr : report_cycle env time_now s = Run.restarted s1 := by
      rw [hrc, hc, Run.bind_restarted]
    refine ⟨asm, g, [], hasm, hlastasm, hallasm, hgtrace, hallg, ?_, ?_, ?_, ?_, ?_⟩
    · rw [hr, List.append_nil]
      exact hgtrace
    · rw [hr]
      exact hlast
    · intro h
      rw [hr] at h
      simp [Run.isRestarted] at h
    · intro _
      refine ⟨rfl, ?_⟩
      intro e he
      simp only [List.append_nil, List.mem_append] at he
      rcases he with h | h
      · exact (hallasm e h).2
      · exact (hallg e h).2
    · intro _
      rw [hr]
      rfl
  | returned s1 =>
    rw [hc] at hg hlast hnever hgtrace
    have hr : report_cycle env time_now s = transmit env s1 := by
      rw [hrc, hc, Run.bind_returned]
    obtain ⟨ht1, -, -, ht4⟩ := transmit_spec env s1
    simp only [Run.state] at hg hgtrace
    have hm : s1.heat_pump_metrics
        = (assemble_report env { s with report_base_time := time_now }).heat_pump_metrics :=
      hg.2.2.2.2.2.1
    have hw : s1.writes = s.writes := by
      rw [hg.2.2.2.2.2.2.1, hwrites]
    rw [hm, hw, hgtrace] at ht4
    refine ⟨asm, g,
      [Event.println
          (assemble_report env { s with report_base_time := time_now }).heat_pump_metrics.fields,
        Event.ledLow,
        Event.writePoint
          (assemble_report env { s with report_base_time := time_now }).heat_pump_metrics.fields
          (env.writePoint s.writes)]
        ++ (if env.writePoint s.writes = true then [Event.ledHigh] else []),
      hasm, hlastasm, hallasm, hgtrace, hallg, ?_, ?_, ?_, ?_, ?_⟩
    · rw [hr]
      exact ht4
    · rw [hr, ht1]
      exact hlast
    · intro _
      rfl
    · intro h
      rw [hr, ht1] at h
      cases h
    · intro hk
      have := hnever hk
      simp [Run.isRestarted] at this

end HvacMetrics
